import Mathlib

/-!
Shallow embedding of the Arion distributed simulation node
(`src/classes/class.node.ts`, package `aethon-arion-node`).

The TypeScript class `Node` is a worker that polls a central server for
simulation jobs, executes them through registered models, and posts the
results back, driven by an RxJS pipeline.  The embedding below translates
the relevant pieces into pure Lean functions:

* JS `null`/`undefined` are modelled with `Option`; JS truthiness of the
  values the code actually tests (numbers, strings, option-like fields) is
  modelled by explicit predicates.
* The mutable fields of the `Node` object become an explicit `NodeState`
  record threaded through the functions that the source mutates it in.
* RxJS `retry({count, delay})` (rxjs 7.8.x) is modelled by `rxRetry`:
  on the n-th error (n counted from 1 post-increment, exactly as in the
  rxjs source, where `soFar++ < count` is followed by `delay(err, soFar)`)
  the pipeline waits `delay n` and re-subscribes, for at most `count`
  retries, after which the error is raised.
* `exhaustMap` on the main loop is modelled by `startLoop`: a tick arriving
  while the inner job observable is still active is dropped and invokes
  nothing.
-/

/-- Log levels of the pipeline `Logger` (`LogLine.type` in the source). -/
inductive LogLevel
  | info
  | warn
  | error
  | trace
  deriving Repr, DecidableEq

/-- A structured log record as emitted through `Node._log` /
`Logger`: level, source object, message text.  (The optional structured
`data` payload never matters to the claims and is omitted.) -/
structure LogRecord where
  level : LogLevel
  src : String
  msg : String
  deriving Repr, DecidableEq

/-- A `RandomStreamFactory` instance (from `aethon-arion-pipeline`),
as the node observes it: the seed list it was constructed from, plus an
allocation number `alloc` modelling JavaScript object identity — every
evaluation of `new RandomStreamFactory(...)` yields a fresh `alloc`, so
two factories are the *same object* iff they are equal in this model. -/
structure RSF where
  seeds : List Int
  alloc : Nat
  deriving Repr, DecidableEq

/-- The `orgConfig` part of a `SimConfigDTO`; only its `type` selector is
read by the node (`simConfigDTO.orgConfig?.type`). -/
structure OrgConfig where
  modelType : Option String
  deriving Repr, DecidableEq

/-- A job descriptor (`SimConfigDTO`) as the node reads it: the fields
tested at `start$` line 459 (`response.id`, `response.orgConfig`). -/
structure SimConfigDTO where
  id : Option Int
  orgConfig : Option OrgConfig
  deriving Repr, DecidableEq

/-- A simulation result (`ResultDTO`); the node only reads `id` and
`simConfigId` for logging and passes the value through otherwise. -/
structure ResultDTO where
  id : Option Int
  simConfigId : Option Int
  deriving Repr, DecidableEq

/-- A registered computation model: `Model` from `aethon-arion-pipeline`.
`name` is the registry key matched (case-sensitively, by string equality)
against `orgConfig.type`; `run` stands for `run$`, abstracting the model
computation as a function of the job, the factory, the node id and the
`saveStateSpace` flag. -/
structure Model where
  name : String
  run : SimConfigDTO → RSF → String → Bool → ResultDTO

/-- JS truthiness of an optional number (`response.id`): `null`,
`undefined` and `0` are falsy. -/
def jsTruthyInt : Option Int → Bool
  | none => false
  | some n => n != 0

/-- JS truthiness of an optional string (`config?.id`): `null`,
`undefined` and the empty string are falsy. -/
def jsTruthyStr : Option String → Bool
  | none => false
  | some s => !s.isEmpty

/-- JS truthiness of an optional boolean (`config?.verbose`,
`config?.saveStateSpace`): only `true` is truthy. -/
def jsTruthyBool : Option Bool → Bool
  | none => false
  | some b => b

/-- The node configuration (`NodeConfig`, `src/interfaces/node.interfaces.ts`).
Optional fields are `Option`; the transport fields (`host`, `protocol`,
`port`, `basePath`) never influence the claims and are kept only as data. -/
structure NodeConfig where
  id : Option String
  host : String
  protocol : Option String
  port : Option Nat
  basePath : Option String
  verbose : Option Bool
  saveStateSpace : Option Bool
  loopInterval : Nat
  deriving Repr, DecidableEq

/-- The mutable per-instance state of a `Node` object: the private fields
assigned in the constructor and updated (or not) by the methods. -/
structure NodeState where
  machineId : String
  instanceId : String
  id : String
  verbose : Bool
  saveStateSpace : Bool
  loopInterval : Nat
  randomStreamFactory : Option RSF
  counter : Nat
  counterDiv : Int
  newline : Bool
  deriving Repr, DecidableEq

/-- The instance id computed in the constructor:
`Math.floor(100000 + Math.random() * 900000)`, where `q` models the value
returned by `Math.random()` (a number in `[0, 1)`). -/
def instanceNum (q : ℚ) : ℤ :=
  ⌊(100000 : ℚ) + q * 900000⌋

/-- The `Node` constructor (source lines 215–234) as a pure function of the
configuration, the host machine id (the value `machineIdSync()` would
return) and the `Math.random()` sample `q`.
Field by field:
* `_verbose = config?.verbose ? true : false`;
* `_machineId = config?.id ? config.id : machineIdSync()` (JS truthiness:
  an absent or empty `config.id` falls back to the host id);
* `_instanceId = Math.floor(100000 + Math.random() * 900000).toString()`;
* `_id = _machineId + ":" + _instanceId`;
* `_saveStateSpace = config?.saveStateSpace ? config.saveStateSpace : false`;
* `_loopInterval = config.loopInterval`; `_counter = 0`;
* `_counterDiv = 1000`; `_newline = false`;
* `_randomStreamFactory` starts `undefined`. -/
def mkNode (config : NodeConfig) (hostMachineId : String) (q : ℚ) : NodeState :=
  let machId := if jsTruthyStr config.id then config.id.getD hostMachineId else hostMachineId
  let instId := toString (instanceNum q).toNat
  { machineId := machId
    instanceId := instId
    id := machId ++ ":" ++ instId
    verbose := jsTruthyBool config.verbose
    saveStateSpace := jsTruthyBool config.saveStateSpace
    loopInterval := config.loopInterval
    randomStreamFactory := none
    counter := 0
    counterDiv := 1000
    newline := false }

/-- What `_console` writes to the terminal: a raw newline, a progress dot,
or a line rendered through `tslog` at a given level. -/
inductive ConsoleOut
  | nl
  | dot
  | line (lvl : LogLevel) (msg : String)
  deriving Repr, DecidableEq

/-- One step of the console sink `Node._console` (source lines 943–980):
given the current state and an incoming log record, returns the updated
state and the terminal output, following the `switch` on `logLine.type`.
For `trace` in quiet mode the counter is incremented first, then a dot is
written if no progress line is open, then a second dot exactly when
`_counterDiv > 0 && _counter % _counterDiv === 0` (the `&&` short-circuit
guards the modulo, mirrored here by the outer `if`). -/
def consoleStep (st : NodeState) (logLine : LogRecord) : NodeState × List ConsoleOut :=
  let body := logLine.src ++ ": " ++ logLine.msg
  let flushNl : List ConsoleOut := if st.newline then [ConsoleOut.nl] else []
  match logLine.level with
  | LogLevel.warn =>
      ({ st with newline := false }, flushNl ++ [ConsoleOut.line LogLevel.warn body])
  | LogLevel.error =>
      ({ st with newline := false }, flushNl ++ [ConsoleOut.line LogLevel.error body])
  | LogLevel.trace =>
      if st.verbose then
        (st, [ConsoleOut.line LogLevel.trace body])
      else
        let c := st.counter + 1
        let firstDot : List ConsoleOut := if st.newline then [] else [ConsoleOut.dot]
        let marker : List ConsoleOut :=
          if 0 < st.counterDiv then
            if (c : Int) % st.counterDiv = 0 then [ConsoleOut.dot] else []
          else []
        ({ st with counter := c, newline := true }, firstDot ++ marker)
  | LogLevel.info =>
      ({ st with newline := false }, flushNl ++ [ConsoleOut.line LogLevel.info body])

/-- The secondary progress marker emitted by a quiet-mode `trace` record:
the portion of the `consoleStep` output beyond the possible first dot. -/
def secondaryMarker (st : NodeState) (logLine : LogRecord) : List ConsoleOut :=
  (consoleStep st logLine).2.drop (if st.newline then 0 else 1)

deriving instance DecidableEq for Except

/-- The result of running an RxJS `retry({count, delay})`-wrapped pipeline
to completion: the final threaded state, the total number of subscription
attempts made, the list of delays waited (in order), and the final outcome
delivered downstream. -/
structure RetryResult (σ E A : Type) where
  state : σ
  attempts : Nat
  delays : List Nat
  outcome : Except E A
  deriving Repr, DecidableEq

/-- RxJS 7.8 `retry({count, delay})` semantics (rxjs
`src/internal/operators/retry.ts`): each subscription attempt runs
`attempt` on the threaded state; on error number n (counted from 1 — the
rxjs source post-increments `soFar` and then calls `delay(err, soFar)`),
if n ≤ count the pipeline waits `delayFn n` and re-subscribes, otherwise
the error is raised downstream.  `soFar` is the errors seen so far and
`remaining` the retries still allowed. -/
def rxRetry {σ E A : Type} (delayFn : Nat → Nat) (attempt : σ → σ × Except E A) :
    σ → Nat → Nat → RetryResult σ E A
  | st, soFar, remaining =>
    match attempt st with
    | (st1, Except.ok a) => ⟨st1, soFar + 1, [], Except.ok a⟩
    | (st1, Except.error e) =>
      match remaining with
      | 0 => ⟨st1, soFar + 1, [], Except.error e⟩
      | r + 1 =>
        let rest := rxRetry delayFn attempt st1 (soFar + 1) r
        ⟨rest.state, rest.attempts, delayFn (soFar + 1) :: rest.delays, rest.outcome⟩

/-- The state visible to `initialiseStreamFactory$`: the memoized factory
(the `_randomStreamFactory` field), plus instrumentation — how many times
`_getSeeds$` has been invoked and the next fresh object-identity number. -/
structure InitState where
  memo : Option RSF
  fetchCount : Nat
  nextAlloc : Nat
  deriving Repr, DecidableEq

/-- One subscription attempt of the `initialiseStreamFactory$` pipeline
(source lines 301–329), up to the `first()` emission or an error:
on the first tick of the interval, `mergeMap` checks the memo; if unset it
invokes `_getSeeds$` (whose response is `srv fetchCount`, already mapped
through `payload ?? null`); `switchMap` then either constructs
`new RandomStreamFactory(seeds)` and memoizes it (for any non-null seeds
array, empty included), or throws `No seeds received from server` when the
response was null; a memoized factory short-circuits both steps. -/
def initAttempt (srv : Nat → Option (List Int)) (st : InitState) :
    InitState × Except String RSF :=
  match st.memo with
  | some f => (st, Except.ok f)
  | none =>
    let resp := srv st.fetchCount
    let st1 : InitState := { st with fetchCount := st.fetchCount + 1 }
    match resp with
    | none => (st1, Except.error "No seeds received from server")
    | some seeds =>
      let f : RSF := ⟨seeds, st1.nextAlloc⟩
      ({ st1 with memo := some f, nextAlloc := st1.nextAlloc + 1 }, Except.ok f)

/-- The full `initialiseStreamFactory$` pipeline (source lines 301–343):
the attempt above wrapped in `retry({count: 3, delay: () => timer(5000)})`
and a `catchError` that converts exhaustion into the terminal
`Random stream factory initialization failed` error. -/
def initialiseStreamFactory (srv : Nat → Option (List Int)) (st : InitState) :
    RetryResult InitState String RSF :=
  let r := rxRetry (fun _ => 5000) (initAttempt srv) st 0 3
  { r with
    outcome :=
      match r.outcome with
      | Except.ok f => Except.ok f
      | Except.error _ => Except.error "Random stream factory initialization failed" }

/-- The server's acknowledgement to a result post, as the node reads it:
only the truthiness of `response?.error` matters (source line 482). -/
structure PostResp where
  errorFlag : Bool
  deriving Repr, DecidableEq

/-- The retry delay of `_postResult$` (source line 847):
`Math.min(2000 * Math.pow(2, retryCount), 32000)`, where `retryCount` is
the rxjs retry counter starting at 1. -/
def postResultDelay (retryCount : Nat) : Nat :=
  min (2000 * 2 ^ retryCount) 32000

/-- The `_postResult$` pipeline (source lines 833–861): the POST request
(attempt n receives `srv n`, `Except.error` being a failed request and
`Except.ok` the — possibly null — response object) wrapped in
`retry({count: 5, delay: ...exponential...})` and a `catchError` that
converts exhaustion into the terminal `Result post failed after retries`
error for this single report. -/
def postResult (srv : Nat → Except String (Option PostResp)) :
    RetryResult Nat String (Option PostResp) :=
  let r := rxRetry postResultDelay (fun n => (n + 1, srv n)) 0 0 5
  { r with
    outcome :=
      match r.outcome with
      | Except.ok v => Except.ok v
      | Except.error _ => Except.error "Result post failed after retries" }

/-- The job dispatcher `simulate$` (source lines 595–606): look the job's
`orgConfig?.type` up in the model registry by strict string equality; on
no match, log `Model <type> not found - skipping job` (through `_log`,
i.e. at info level) and return null; on a match with no initialized
factory, log `Random stream factory not initialised - retrying` and
return null; otherwise run the model. -/
def simulate (st : NodeState) (models : List Model) (cfg : SimConfigDTO) :
    Option ResultDTO × List LogRecord :=
  let t := cfg.orgConfig.bind OrgConfig.modelType
  match models.find? (fun m => t == some m.name) with
  | none =>
      (none, [⟨LogLevel.info, "Node",
        "Model " ++ t.getD "undefined" ++ " not found - skipping job"⟩])
  | some m =>
    match st.randomStreamFactory with
    | some f => (some (m.run cfg f st.id st.saveStateSpace), [])
    | none =>
        (none, [⟨LogLevel.info, "Node",
          "Random stream factory not initialised - retrying"⟩])

/-- Everything one processed tick of the main loop produces: the updated
node state, the boolean emitted downstream, the log records, whether the
dispatcher (`simulate$`) was invoked, whether a model actually ran, and
the attempts/delays of the result post (0/empty when nothing was posted). -/
structure TickResult where
  state : NodeState
  emitted : Bool
  logs : List LogRecord
  dispatched : Bool
  executed : Bool
  postAttempts : Nat
  postDelays : List Nat
  deriving Repr, DecidableEq

/-- The body of the `exhaustMap` in `start$` (source lines 454–495) — the
processing of one accepted tick.  `jobResponse` is the `_getNext$`
response after `payload ?? null`; `postSrv` is the result-post server
behaviour per attempt.  The tick resets `_counter`, logs
`Requesting job`, then: a response that is null, has a falsy `id` or a
missing `orgConfig` logs `No job received - retrying` and emits `false`;
otherwise the job is dispatched through `simulate$`; a null simulation
result emits `false`; a result is posted through `_postResult$`, a truthy
non-error acknowledgement emits `true`, a null or error-flagged one emits
`false`, and a post failure after retries is caught by the inner
`catchError`, logged as `Error processing job`, and emits `false`. -/
def processTick (st : NodeState) (models : List Model)
    (jobResponse : Option SimConfigDTO)
    (postSrv : Nat → Except String (Option PostResp)) : TickResult :=
  let st0 := { st with counter := 0 }
  let logs0 : List LogRecord := [⟨LogLevel.info, "Node", "Requesting job"⟩]
  match jobResponse with
  | some response =>
    if jsTruthyInt response.id && response.orgConfig.isSome then
      let simOut := simulate st0 models response
      let logs1 := logs0 ++ [⟨LogLevel.info, "Node", "SimConfig received"⟩] ++ simOut.2
      match simOut.1 with
      | some _res =>
        let post := postResult postSrv
        let logs2 := logs1 ++ [⟨LogLevel.info, "Node", "Posting results"⟩]
        match post.outcome with
        | Except.ok (some r) =>
          if r.errorFlag then
            ⟨st0, false, logs2, true, true, post.attempts, post.delays⟩
          else
            ⟨st0, true, logs2 ++ [⟨LogLevel.info, "Node", "Response received"⟩],
              true, true, post.attempts, post.delays⟩
        | Except.ok none =>
            ⟨st0, false, logs2, true, true, post.attempts, post.delays⟩
        | Except.error _ =>
            ⟨st0, false, logs2 ++ [⟨LogLevel.info, "Node", "Error processing job"⟩],
              true, true, post.attempts, post.delays⟩
      | none => ⟨st0, false, logs1, true, false, 0, []⟩
    else
      ⟨st0, false, logs0 ++ [⟨LogLevel.info, "Node", "No job received - retrying"⟩],
        false, false, 0, []⟩
  | none =>
      ⟨st0, false, logs0 ++ [⟨LogLevel.info, "Node", "No job received - retrying"⟩],
        false, false, 0, []⟩

/-- An event delivered to the subscriber of an observable: an emission, an
error raised to the subscriber, or completion. -/
inductive StreamEvent (α : Type)
  | next (a : α)
  | fatal (e : String)
  | completed
  deriving Repr, DecidableEq

/-- The subscriber-visible events of `start$` (source lines 449–504), as a
function of the initializer outcome and of the per-tick booleans produced
by the `exhaustMap` stage (a finite observation prefix of the
never-completing loop).  When `initialiseStreamFactory$` errors, the
`concatMap` forwards the error without ever subscribing the loop interval,
and the outer `catchError` (lines 497–502) replaces it with `of(false)` —
the subscriber sees a single `false` emission followed by completion and
no raised error.  When initialization succeeds, the subscriber sees the
per-tick booleans; the inner `catchError` (lines 489–494) already confines
every tick failure to a `false` emission, and the interval never
completes. -/
def startEvents (initOutcome : Except String RSF) (tickEmissions : List Bool) :
    List (StreamEvent Bool) :=
  match initOutcome with
  | Except.error _ => [StreamEvent.next false, StreamEvent.completed]
  | Except.ok _ => tickEmissions.map StreamEvent.next

/-- The `exhaustMap` of the main loop (source line 454) over a discrete
timeline: ticks arrive at the listed times; a tick arriving while the job
started by a previous tick is still in flight (strictly before its
completion time `busyUntil`) is dropped — `exhaustMap` never invokes its
project function for it, so it produces no activity (`none`); an accepted
tick at time t produces the activity `act t` of one full processed tick
and keeps the loop busy until `t + dur t`. -/
def startLoop {α : Type} (dur : Nat → Nat) (act : Nat → α) :
    List Nat → Nat → List (Nat × Option α)
  | [], _ => []
  | t :: ts, busyUntil =>
    if t < busyUntil then (t, none) :: startLoop dur act ts busyUntil
    else (t, some (act t)) :: startLoop dur act ts (t + dur t)

/-- The phase of one in-flight `initialiseStreamFactory$` subscription:
not yet ticked; seed request issued and awaiting the response; finished
with an outcome. -/
inductive CallPhase
  | ready
  | waiting
  | finished (outcome : Except String RSF)
  deriving Repr, DecidableEq

/-- One atomic scheduler step of an `initialiseStreamFactory$`
subscription against the shared node state, following the split the
asynchronous HTTP round-trip imposes on the source: at its interval tick
(`ready`), the `mergeMap` checks the memo — a memoized factory completes
the call immediately, otherwise `_getSeeds$` is invoked and the call
suspends; when its response `resp` arrives (`waiting`), the `switchMap`
either constructs and memoizes a fresh factory or errors on null seeds. -/
def callStep (resp : Option (List Int)) :
    InitState × CallPhase → InitState × CallPhase
  | (st, CallPhase.ready) =>
    match st.memo with
    | some f => (st, CallPhase.finished (Except.ok f))
    | none => ({ st with fetchCount := st.fetchCount + 1 }, CallPhase.waiting)
  | (st, CallPhase.waiting) =>
    match resp with
    | none => (st, CallPhase.finished (Except.error "No seeds received from server"))
    | some seeds =>
      let f : RSF := ⟨seeds, st.nextAlloc⟩
      ({ st with memo := some f, nextAlloc := st.nextAlloc + 1 },
        CallPhase.finished (Except.ok f))
  | (st, CallPhase.finished o) => (st, CallPhase.finished o)

/-- Two `initialiseStreamFactory$` calls sharing one node state. -/
structure TwoCalls where
  shared : InitState
  call1 : CallPhase
  call2 : CallPhase
  deriving Repr, DecidableEq

/-- Advance one of the two calls by one atomic step (`false` = call 1,
`true` = call 2); `r1`, `r2` are the seed responses the server returns to
the respective call's fetch. -/
def twoStep (r1 r2 : Option (List Int)) (s : TwoCalls) (which : Bool) : TwoCalls :=
  if which then
    let next := callStep r2 (s.shared, s.call2)
    { s with shared := next.1, call2 := next.2 }
  else
    let next := callStep r1 (s.shared, s.call1)
    { s with shared := next.1, call1 := next.2 }

/-- Run a schedule (an interleaving) of the two calls. -/
def runTwo (r1 r2 : Option (List Int)) (sched : List Bool) (s : TwoCalls) : TwoCalls :=
  sched.foldl (twoStep r1 r2) s

/-- A fresh node's initialization state: no memoized factory, no fetches. -/
def initState0 : InitState := ⟨none, 0, 0⟩

/-- Two calls on a fresh node, neither started. -/
def twoCalls0 : TwoCalls := ⟨initState0, CallPhase.ready, CallPhase.ready⟩

/-- Discriminator for an error raised to the subscriber. -/
def StreamEvent.isFatal {α : Type} : StreamEvent α → Bool
  | StreamEvent.fatal _ => true
  | _ => false

/-- The assignment `this._randomStreamFactory = new RandomStreamFactory(seeds)`
(source line 315) as a `NodeState` update. -/
def setFactory (st : NodeState) (f : RSF) : NodeState :=
  { st with randomStreamFactory := some f }

/-- The `nodeId` query parameter `_getNext$` attaches to every job request
(source line 795): the node's composite id. -/
def getNextNodeId (st : NodeState) : String := st.id

/-- A test model registered under the name `A`. -/
def modelA : Model := ⟨"A", fun _ _ _ _ => ⟨some 1, some 1⟩⟩

/-- A quiet-mode node whose random stream factory is initialized. -/
def nodeReady : NodeState :=
  { machineId := "HOST", instanceId := "100000", id := "HOST:100000",
    verbose := false, saveStateSpace := false, loopInterval := 2000,
    randomStreamFactory := some ⟨[1, 2, 3], 0⟩, counter := 0, counterDiv := 1000,
    newline := false }

/-- A well-formed job declaring model type `A`. -/
def jobA : SimConfigDTO := ⟨some 1, some ⟨some "A"⟩⟩

/-- A result-post server on which every request fails. -/
def failingPost : Nat → Except String (Option PostResp) := fun _ =>
  Except.error "HTTP 500"

/-- Claim C3: the result-post retry path is claimed to make exactly 5 retry
attempts with inter-attempt delays of 2, 4, 8, 16, 32 time units.  The code
does make exactly 5 retry attempts (6 requests in all) and the failed
report resolves the tick to `false` without crashing the loop, but the
delays it actually waits are 4, 8, 16, 32, 32 seconds: the rxjs retry
counter starts at 1, so `Math.min(2000 * Math.pow(2, retryCount), 32000)`
never evaluates to 2000 — contradicting both the claim and the code's own
comment "Exponential backoff: 2s, 4s, 8s, 16s, 32s". -/
theorem C3_post_retry_delays :
    (postResult failingPost).attempts = 6 ∧
    (postResult failingPost).delays = [4000, 8000, 16000, 32000, 32000] ∧
    (postResult failingPost).delays ≠ [2000, 4000, 8000, 16000, 32000] ∧
    (postResult failingPost).outcome =
      Except.error "Result post failed after retries" ∧
    (processTick nodeReady [modelA] (some jobA) failingPost).emitted = false ∧
    (processTick nodeReady [modelA] (some jobA) failingPost).postDelays =
      [4000, 8000, 16000, 32000, 32000] := by
  refine ⟨rfl, rfl, by decide, rfl, rfl, rfl⟩

/-- Claim C4: when the server never returns seeds, the
`initialiseStreamFactory$` pipeline makes exactly 3 bounded retry attempts
(4 seed fetches in all), waiting the fixed 5000 ms delay before each
retry, and then fails permanently with the terminal error
`Random stream factory initialization failed`, the factory still unset. -/
theorem C4_seed_retry_bound (srv : Nat → Option (List Int))
    (h : ∀ k, srv k = none) :
    (initialiseStreamFactory srv initState0).attempts = 4 ∧
    (initialiseStreamFactory srv initState0).delays = [5000, 5000, 5000] ∧
    (initialiseStreamFactory srv initState0).outcome =
      Except.error "Random stream factory initialization failed" ∧
    (initialiseStreamFactory srv initState0).state.memo = none := by
  simp [initialiseStreamFactory, rxRetry, initAttempt, initState0, h]

/-- Witness for C4 at the server that never returns seeds. -/
theorem C4_seed_retry_bound_witness :
    (initialiseStreamFactory (fun _ => none) initState0).attempts = 4 ∧
    (initialiseStreamFactory (fun _ => none) initState0).delays = [5000, 5000, 5000] ∧
    (initialiseStreamFactory (fun _ => none) initState0).outcome =
      Except.error "Random stream factory initialization failed" ∧
    (initialiseStreamFactory (fun _ => none) initState0).state.memo = none :=
  C4_seed_retry_bound (fun _ => none) (fun _ => rfl)

/-- Counterexample to claim C6: on a seed response that is the empty
array, the initializer does NOT treat it as "no seeds": it constructs a
`RandomStreamFactory` from the empty array on the very first attempt
(one fetch, no retry) and memoizes it — the memoized factory does not
remain unset.  (`payload ?? null` keeps `[]`, and the `switchMap` only
tests `seeds !== null`.) -/
theorem C6_counterexample :
    (initialiseStreamFactory (fun _ => some []) initState0).state.memo =
      some ⟨[], 0⟩ ∧
    (initialiseStreamFactory (fun _ => some []) initState0).outcome =
      Except.ok ⟨[], 0⟩ ∧
    (initialiseStreamFactory (fun _ => some []) initState0).state.fetchCount = 1 ∧
    (initialiseStreamFactory (fun _ => some []) initState0).attempts = 1 := by
  refine ⟨rfl, rfl, rfl, rfl⟩

/-- Claim C6 as amended: only a null/undefined seed payload is treated as
"no seeds" (error, triggering the retry, leaving the memo unset); any
array response — the empty array included — is accepted: the initializer
constructs a `RandomStreamFactory` from it and memoizes that instance. -/
theorem C6_empty_seeds_accepted (srv : Nat → Option (List Int)) (st : InitState)
    (hm : st.memo = none) (he : srv st.fetchCount = some [])
    (srv2 : Nat → Option (List Int)) (st2 : InitState)
    (hm2 : st2.memo = none) (hn2 : srv2 st2.fetchCount = none) :
    initAttempt srv st =
      ({ memo := some ⟨[], st.nextAlloc⟩, fetchCount := st.fetchCount + 1,
         nextAlloc := st.nextAlloc + 1 }, Except.ok ⟨[], st.nextAlloc⟩) ∧
    initAttempt srv2 st2 =
      ({ memo := none, fetchCount := st2.fetchCount + 1,
         nextAlloc := st2.nextAlloc },
        Except.error "No seeds received from server") := by
  constructor
  · simp [initAttempt, hm, he]
  · simp [initAttempt, hm2, hn2]

/-- Witness for C6 as amended, at the empty-array server and the
null-response server on a fresh node. -/
theorem C6_empty_seeds_accepted_witness :
    initAttempt (fun _ => some []) initState0 =
      ({ memo := some ⟨[], 0⟩, fetchCount := 1, nextAlloc := 1 },
        Except.ok ⟨[], 0⟩) ∧
    initAttempt (fun _ => none) initState0 =
      ({ memo := none, fetchCount := 1, nextAlloc := 0 },
        Except.error "No seeds received from server") :=
  C6_empty_seeds_accepted (fun _ => some []) initState0 rfl rfl
    (fun _ => none) initState0 rfl rfl

/-- Helper for claim C7: whenever no registered model name matches the
job's declared type `t`, `simulate$` returns null and logs the info-level
record naming the missing type (the `_log` helper routes every message
through `logger.info`). -/
theorem simulate_miss_eq (st : NodeState) (models : List Model)
    (cfg : SimConfigDTO) (t : String)
    (ht : cfg.orgConfig.bind OrgConfig.modelType = some t)
    (hmiss : ∀ m ∈ models, m.name ≠ t) :
    simulate st models cfg =
      (none, [⟨LogLevel.info, "Node",
        "Model " ++ t ++ " not found - skipping job"⟩]) := by
  have hfind : models.find? (fun m => t == m.name) = none := by
    rw [List.find?_eq_none]
    intro m hm
    simp only [beq_iff_eq]
    exact fun hEq => hmiss m hm hEq.symm
  simp [simulate, ht, hfind]

/-- Counterexample to claim C7: a job declaring the unregistered type
`X` makes `simulate$` emit the record
`Model X not found - skipping job` at the INFO level, not at the
warning level the claim states (the node's `_log` always calls
`logger.info`; the repository's own test asserts
`logLine.type === "info"` for this record). -/
theorem C7_counterexample :
    (simulate nodeReady [modelA] ⟨some 1, some ⟨some "X"⟩⟩).1 = none ∧
    (simulate nodeReady [modelA] ⟨some 1, some ⟨some "X"⟩⟩).2 =
      [⟨LogLevel.info, "Node", "Model X not found - skipping job"⟩] ∧
    LogLevel.info ≠ LogLevel.warn ∧
    ((simulate nodeReady [modelA] ⟨some 1, some ⟨some "X"⟩⟩).2.all
      (fun r => r.level != LogLevel.warn)) = true := by
  refine ⟨rfl, rfl, by decide, rfl⟩

/-- Claim C7 as amended: for every job whose declared `orgConfig.type`
matches no registered model name (case-sensitive exact match), `simulate$`
emits an INFO-level log record containing the missing type name and
returns null — not an error — so the tick resolves to `false` with no
model run and no post attempt; and when the type matches but the
randomness factory is not yet initialized, `simulate$` likewise returns
null with its info log. -/
theorem C7_dispatch_miss_info (st : NodeState) (models : List Model)
    (cfg : SimConfigDTO) (t : String)
    (postSrv : Nat → Except String (Option PostResp))
    (ht : cfg.orgConfig.bind OrgConfig.modelType = some t)
    (hmiss : ∀ m ∈ models, m.name ≠ t)
    (hid : jsTruthyInt cfg.id = true)
    (st2 : NodeState) (models2 : List Model) (cfg2 : SimConfigDTO) (m2 : Model)
    (hhit : models2.find?
      (fun m => cfg2.orgConfig.bind OrgConfig.modelType == some m.name) = some m2)
    (hf2 : st2.randomStreamFactory = none) :
    simulate st models cfg =
      (none, [⟨LogLevel.info, "Node",
        "Model " ++ t ++ " not found - skipping job"⟩]) ∧
    (processTick st models (some cfg) postSrv).emitted = false ∧
    (processTick st models (some cfg) postSrv).executed = false ∧
    (processTick st models (some cfg) postSrv).postAttempts = 0 ∧
    simulate st2 models2 cfg2 =
      (none, [⟨LogLevel.info, "Node",
        "Random stream factory not initialised - retrying"⟩]) := by
  have horg : cfg.orgConfig.isSome = true := by
    cases hoc : cfg.orgConfig with
    | none => rw [hoc] at ht; simp at ht
    | some oc => rfl
  have hsim := simulate_miss_eq { st with counter := 0 } models cfg t ht hmiss
  refine ⟨simulate_miss_eq st models cfg t ht hmiss, ?_, ?_, ?_, ?_⟩
  · simp [processTick, hid, horg, hsim]
  · simp [processTick, hid, horg, hsim]
  · simp [processTick, hid, horg, hsim]
  · simp [simulate, hhit, hf2]

/-- Witness for C7 as amended: the unregistered type `X` against the
registry containing only `A`, and a matching job on a node whose factory
is unset. -/
theorem C7_dispatch_miss_info_witness :
    simulate nodeReady [modelA] ⟨some 1, some ⟨some "X"⟩⟩ =
      (none, [⟨LogLevel.info, "Node", "Model X not found - skipping job"⟩]) ∧
    (processTick nodeReady [modelA] (some ⟨some 1, some ⟨some "X"⟩⟩) failingPost).emitted = false ∧
    (processTick nodeReady [modelA] (some ⟨some 1, some ⟨some "X"⟩⟩) failingPost).executed = false ∧
    (processTick nodeReady [modelA] (some ⟨some 1, some ⟨some "X"⟩⟩) failingPost).postAttempts = 0 ∧
    simulate { nodeReady with randomStreamFactory := none } [modelA] jobA =
      (none, [⟨LogLevel.info, "Node",
        "Random stream factory not initialised - retrying"⟩]) :=
  C7_dispatch_miss_info nodeReady [modelA] ⟨some 1, some ⟨some "X"⟩⟩ "X"
    failingPost rfl (by decide) rfl
    { nodeReady with randomStreamFactory := none } [modelA] jobA modelA rfl rfl

/-- Claim C8: a job-fetch response that is null/undefined, or carries a
falsy `id`, or has no `orgConfig` (the type selector), is treated as
"no job available": the tick logs `No job received - retrying`, performs
no dispatch, no model execution and no post attempt, and emits `false` —
not an error. -/
theorem C8_malformed_job_no_job (st : NodeState) (models : List Model)
    (resp : Option SimConfigDTO) (postSrv : Nat → Except String (Option PostResp))
    (h : resp = none ∨
      ∃ r, resp = some r ∧ (jsTruthyInt r.id = false ∨ r.orgConfig = none)) :
    processTick st models resp postSrv =
      ⟨{ st with counter := 0 }, false,
        [⟨LogLevel.info, "Node", "Requesting job"⟩,
         ⟨LogLevel.info, "Node", "No job received - retrying"⟩],
        false, false, 0, []⟩ := by
  rcases h with h | ⟨r, hr, hbad⟩
  · subst h; rfl
  · subst hr
    rcases hbad with hb | hb
    · simp [processTick, hb]
    · simp [processTick, hb]

/-- Witness for C8 at a descriptor with a missing `id`. -/
theorem C8_malformed_job_no_job_witness :
    processTick nodeReady [modelA] (some ⟨none, some ⟨some "A"⟩⟩) failingPost =
      ⟨{ nodeReady with counter := 0 }, false,
        [⟨LogLevel.info, "Node", "Requesting job"⟩,
         ⟨LogLevel.info, "Node", "No job received - retrying"⟩],
        false, false, 0, []⟩ :=
  C8_malformed_job_no_job nodeReady [modelA] (some ⟨none, some ⟨some "A"⟩⟩)
    failingPost (Or.inr ⟨⟨none, some ⟨some "A"⟩⟩, rfl, Or.inl rfl⟩)

/-- Claim C9: in quiet mode every `trace` record advances the in-memory
counter by one; the secondary progress marker is written exactly when
`_counterDiv > 0` and the advanced counter is a multiple of
`_counterDiv`; with the default `_counterDiv = 1000` (set by the
constructor) that is exactly every 1000th occurrence; and whenever
`_counterDiv ≤ 0` the marker is disabled — the modulo sits behind the
short-circuit guard and is never reached. -/
theorem C9_trace_progress (st : NodeState) (ln : LogRecord)
    (c : NodeConfig) (hostId : String) (q : ℚ)
    (hq : st.verbose = false) (ht : ln.level = LogLevel.trace) :
    (consoleStep st ln).1.counter = st.counter + 1 ∧
    secondaryMarker st ln =
      (if 0 < st.counterDiv ∧ ((st.counter : Int) + 1) % st.counterDiv = 0
        then [ConsoleOut.dot] else []) ∧
    (st.counterDiv ≤ 0 → secondaryMarker st ln = []) ∧
    (st.counterDiv = 1000 →
      (secondaryMarker st ln = [ConsoleOut.dot] ↔
        (1000 : Int) ∣ ((st.counter : Int) + 1))) ∧
    (mkNode c hostId q).counterDiv = 1000 := by
  have hmark : secondaryMarker st ln =
      (if 0 < st.counterDiv then
        if ((st.counter : Int) + 1) % st.counterDiv = 0
          then [ConsoleOut.dot] else []
        else []) := by
    by_cases hnl : st.newline <;>
      simp [secondaryMarker, consoleStep, ht, hq, hnl, Int.add_comm]
  refine ⟨by simp [consoleStep, ht, hq], ?_, ?_, ?_, rfl⟩
  · rw [hmark]
    by_cases hdiv : 0 < st.counterDiv <;>
      by_cases hmod : ((st.counter : Int) + 1) % st.counterDiv = 0 <;>
      simp [hdiv, hmod]
  · intro hle
    rw [hmark, if_neg (by omega)]
  · intro hdiv
    rw [hmark, hdiv, if_pos (by norm_num)]
    by_cases hmod : ((st.counter : Int) + 1) % 1000 = 0
    · rw [if_pos hmod]
      exact ⟨fun _ => Int.dvd_iff_emod_eq_zero.mpr hmod, fun _ => rfl⟩
    · rw [if_neg hmod]
      exact ⟨fun h => absurd h (by simp),
        fun hd => absurd (Int.dvd_iff_emod_eq_zero.mp hd) hmod⟩

/-- Counterexample to claim C2: when the server never returns seeds, the
initializer does fail permanently with the terminal error, but that error
is NOT raised to the subscriber of `start$`: the outer `catchError`
(source lines 497–502) replaces it with `of(false)`, so the subscriber
sees a single `false` emission followed by completion and no error event
at all. -/
theorem C2_counterexample :
    (initialiseStreamFactory (fun _ => none) initState0).outcome =
      Except.error "Random stream factory initialization failed" ∧
    startEvents (initialiseStreamFactory (fun _ => none) initState0).outcome [] =
      [StreamEvent.next false, StreamEvent.completed] ∧
    ((startEvents (initialiseStreamFactory (fun _ => none) initState0).outcome []).all
      (fun e => !e.isFatal)) = true := by
  refine ⟨rfl, rfl, rfl⟩

/-- Claim C2 as amended: when seed initialization exhausts its retries the
initializer fails permanently with the terminal error and the main loop is
never entered (the factory stays unset and no tick emission is derived
from the loop), but the fatal error is converted by the outer
`catchError` of `start$` into a single `false` emission followed by
completion; the output stream never raises any error to its subscriber —
on the fatal path or on any other. -/
theorem C2_fatal_init_contained (srv : Nat → Option (List Int))
    (ticks : List Bool) (outAny : Except String RSF) (ticksAny : List Bool)
    (h : ∀ k, srv k = none) :
    (initialiseStreamFactory srv initState0).outcome =
      Except.error "Random stream factory initialization failed" ∧
    (initialiseStreamFactory srv initState0).state.memo = none ∧
    startEvents (initialiseStreamFactory srv initState0).outcome ticks =
      [StreamEvent.next false, StreamEvent.completed] ∧
    ((startEvents outAny ticksAny).all (fun e => !e.isFatal)) = true := by
  have hout : (initialiseStreamFactory srv initState0).outcome =
      Except.error "Random stream factory initialization failed" := by
    simp [initialiseStreamFactory, rxRetry, initAttempt, initState0, h]
  refine ⟨hout, ?_, ?_, ?_⟩
  · simp [initialiseStreamFactory, rxRetry, initAttempt, initState0, h]
  · rw [hout]; rfl
  · cases outAny with
    | error e => rfl
    | ok f =>
        simp only [startEvents, List.all_eq_true]
        intro x hx
        rcases List.mem_map.mp hx with ⟨b, _, hb⟩
        subst hb
        rfl

/-- Witness for C2 as amended, at the server that never returns seeds. -/
theorem C2_fatal_init_contained_witness :
    (initialiseStreamFactory (fun _ => none) initState0).outcome =
      Except.error "Random stream factory initialization failed" ∧
    (initialiseStreamFactory (fun _ => none) initState0).state.memo = none ∧
    startEvents (initialiseStreamFactory (fun _ => none) initState0).outcome
        [true, false] =
      [StreamEvent.next false, StreamEvent.completed] ∧
    ((startEvents (Except.ok ⟨[1, 2, 3], 0⟩) [true, false]).all
      (fun e => !e.isFatal)) = true :=
  C2_fatal_init_contained (fun _ => none) [true, false]
    (Except.ok ⟨[1, 2, 3], 0⟩) [true, false] (fun _ => rfl)

/-- Counterexample to claim C5: two concurrent invocations of
`initialiseStreamFactory$` on a fresh node, interleaved so that both
interval ticks fire before either seed response arrives (schedule:
call 1 checks, call 2 checks, call 1 builds, call 2 builds), invoke the
seed fetch twice — not at most once — and return two DISTINCT factory
instances: call 2 constructs a second object and overwrites the memo. -/
theorem C5_counterexample :
    (runTwo (some [1, 2, 3]) (some [1, 2, 3]) [false, true, false, true]
      twoCalls0).shared.fetchCount = 2 ∧
    (runTwo (some [1, 2, 3]) (some [1, 2, 3]) [false, true, false, true]
      twoCalls0).call1 = CallPhase.finished (Except.ok ⟨[1, 2, 3], 0⟩) ∧
    (runTwo (some [1, 2, 3]) (some [1, 2, 3]) [false, true, false, true]
      twoCalls0).call2 = CallPhase.finished (Except.ok ⟨[1, 2, 3], 1⟩) ∧
    (runTwo (some [1, 2, 3]) (some [1, 2, 3]) [false, true, false, true]
      twoCalls0).shared.memo = some ⟨[1, 2, 3], 1⟩ ∧
    (⟨[1, 2, 3], 0⟩ : RSF) ≠ ⟨[1, 2, 3], 1⟩ := by
  refine ⟨rfl, rfl, rfl, rfl, by decide⟩

/-- Claim C5 as amended: idempotence holds sequentially — when a second
call starts after the first has built and memoized the factory, the
second call emits the identical memoized instance, the seed fetch is
invoked exactly once across both calls (in general, a call that finds the
memo set performs no fetch at all and completes immediately with that very
instance, as the last conjunct states for the full retry pipeline) —
but two calls whose check phases interleave before either build completes
may each invoke the fetch and obtain distinct instances. -/
theorem C5_sequential_idempotent (l : List Int) (rAny : Option (List Int))
    (srv : Nat → Option (List Int)) (st : InitState) (f : RSF)
    (hm : st.memo = some f) :
    (runTwo (some l) rAny [false, false, true] twoCalls0).shared.fetchCount = 1 ∧
    (runTwo (some l) rAny [false, false, true] twoCalls0).call1 =
      CallPhase.finished (Except.ok ⟨l, 0⟩) ∧
    (runTwo (some l) rAny [false, false, true] twoCalls0).call2 =
      CallPhase.finished (Except.ok ⟨l, 0⟩) ∧
    initialiseStreamFactory srv st = ⟨st, 1, [], Except.ok f⟩ := by
  refine ⟨rfl, rfl, rfl, ?_⟩
  simp [initialiseStreamFactory, rxRetry, initAttempt, hm]

/-- Witness for C5 as amended: a sequential pair of calls with seeds
`[1, 2, 3]`, and the memoized fast path on an already-built state. -/
theorem C5_sequential_idempotent_witness :
    (runTwo (some [1, 2, 3]) none [false, false, true] twoCalls0).shared.fetchCount = 1 ∧
    (runTwo (some [1, 2, 3]) none [false, false, true] twoCalls0).call1 =
      CallPhase.finished (Except.ok ⟨[1, 2, 3], 0⟩) ∧
    (runTwo (some [1, 2, 3]) none [false, false, true] twoCalls0).call2 =
      CallPhase.finished (Except.ok ⟨[1, 2, 3], 0⟩) ∧
    initialiseStreamFactory (fun _ => none) ⟨some ⟨[9], 7⟩, 5, 8⟩ =
      ⟨⟨some ⟨[9], 7⟩, 5, 8⟩, 1, [], Except.ok ⟨[9], 7⟩⟩ :=
  C5_sequential_idempotent [1, 2, 3] none (fun _ => none)
    ⟨some ⟨[9], 7⟩, 5, 8⟩ ⟨[9], 7⟩ rfl

/-- Helper for claim C10: the console sink never touches the identity
fields of the node state. -/
theorem consoleStep_preserves_id (st : NodeState) (ln : LogRecord) :
    (consoleStep st ln).1.machineId = st.machineId ∧
    (consoleStep st ln).1.instanceId = st.instanceId ∧
    (consoleStep st ln).1.id = st.id := by
  unfold consoleStep
  cases hl : ln.level <;> dsimp only <;> repeat' split
  all_goals exact ⟨rfl, rfl, rfl⟩

/-- Helper for claim C10: a processed tick only resets the trace counter —
the node state after any tick is exactly the incoming state with
`_counter = 0`, so in particular the identity fields are untouched. -/
theorem processTick_state_eq (st : NodeState) (models : List Model)
    (resp : Option SimConfigDTO) (postSrv : Nat → Except String (Option PostResp)) :
    (processTick st models resp postSrv).state = { st with counter := 0 } := by
  cases resp with
  | none => rfl
  | some r =>
      unfold processTick
      dsimp only
      repeat' split
      all_goals rfl

/-- Counterexample to claim C10: a configuration that supplies
`config.id` as the empty string.  The constructor tests `config?.id ?`
with JS truthiness, so the supplied empty string is rejected and the
machine id falls back to the host-derived id instead of equalling
`config.id`. -/
theorem C10_counterexample :
    (mkNode ⟨some "", "localhost", none, none, none, none, none, 2000⟩
      "HOST" 0).machineId = "HOST" ∧
    (some "" : Option String) ≠ none ∧
    ("HOST" : String) ≠ "" := by
  refine ⟨rfl, by decide, by decide⟩

/-- Claim C10 as amended: at construction the instance id is the decimal
string of an integer in 100000–999999 (hence six digits); the machine id
equals `config.id` whenever a non-empty id is supplied and the
host-derived machine id when none is supplied (an empty supplied id also
falls back to the host id); the node id is `machineId ++ ":" ++
instanceId`; and no operation of the node — console sink step, tick
processing, factory memoization — reassigns any of these fields, so the
node id carried by every outbound job request (`getNextNodeId`) is stable
for the life of the process. -/
theorem C10_identity_invariant (c : NodeConfig) (hostId : String) (q : ℚ)
    (h0 : 0 ≤ q) (h1 : q < 1)
    (s : String) (hs : c.id = some s) (hne : s.isEmpty = false)
    (c2 : NodeConfig) (hostId2 : String) (q2 : ℚ) (hnone : c2.id = none)
    (st : NodeState) (ln : LogRecord) (models : List Model)
    (resp : Option SimConfigDTO) (postSrv : Nat → Except String (Option PostResp))
    (f : RSF) :
    (100000 ≤ (instanceNum q).toNat ∧ (instanceNum q).toNat ≤ 999999) ∧
    (mkNode c hostId q).instanceId = toString (instanceNum q).toNat ∧
    (mkNode c hostId q).id =
      (mkNode c hostId q).machineId ++ ":" ++ (mkNode c hostId q).instanceId ∧
    (mkNode c hostId q).machineId = s ∧
    (mkNode c2 hostId2 q2).machineId = hostId2 ∧
    (consoleStep st ln).1.machineId = st.machineId ∧
    (consoleStep st ln).1.instanceId = st.instanceId ∧
    (consoleStep st ln).1.id = st.id ∧
    (processTick st models resp postSrv).state.machineId = st.machineId ∧
    (processTick st models resp postSrv).state.instanceId = st.instanceId ∧
    (processTick st models resp postSrv).state.id = st.id ∧
    (setFactory st f).machineId = st.machineId ∧
    (setFactory st f).instanceId = st.instanceId ∧
    (setFactory st f).id = st.id ∧
    getNextNodeId st = st.id := by
  have hlow : (100000 : ℤ) ≤ instanceNum q := by
    rw [instanceNum, Int.le_floor]
    push_cast
    nlinarith [mul_nonneg h0 (show (0 : ℚ) ≤ 900000 by norm_num)]
  have hhigh : instanceNum q < 1000000 := by
    rw [instanceNum, Int.floor_lt]
    push_cast
    nlinarith [mul_lt_mul_of_pos_right h1 (show (0 : ℚ) < 900000 by norm_num)]
  have hcons := consoleStep_preserves_id st ln
  have htick := processTick_state_eq st models resp postSrv
  refine ⟨⟨by omega, by omega⟩, rfl, rfl, ?_, ?_, hcons.1, hcons.2.1, hcons.2.2,
    by rw [htick], by rw [htick], by rw [htick], rfl, rfl, rfl, rfl⟩
  · simp [mkNode, jsTruthyStr, hs, hne]
  · simp [mkNode, jsTruthyStr, hnone]

/-- Witness for C10 as amended, at a concrete configuration, log record,
job response and random sample. -/
theorem C10_identity_invariant_witness :
    (100000 ≤ (instanceNum (1/2 : ℚ)).toNat ∧ (instanceNum (1/2 : ℚ)).toNat ≤ 999999) ∧
    (mkNode ⟨some "M1", "h", none, none, none, some true, some true, 1000⟩
      "HOST" (1/2 : ℚ)).instanceId = toString (instanceNum (1/2 : ℚ)).toNat ∧
    (mkNode ⟨some "M1", "h", none, none, none, some true, some true, 1000⟩
      "HOST" (1/2 : ℚ)).id =
      (mkNode ⟨some "M1", "h", none, none, none, some true, some true, 1000⟩
        "HOST" (1/2 : ℚ)).machineId ++ ":" ++
      (mkNode ⟨some "M1", "h", none, none, none, some true, some true, 1000⟩
        "HOST" (1/2 : ℚ)).instanceId ∧
    (mkNode ⟨some "M1", "h", none, none, none, some true, some true, 1000⟩
      "HOST" (1/2 : ℚ)).machineId = "M1" ∧
    (mkNode ⟨none, "h", none, none, none, none, none, 2000⟩ "H2" 0).machineId = "H2" ∧
    (consoleStep nodeReady ⟨LogLevel.info, "Node", "x"⟩).1.machineId = nodeReady.machineId ∧
    (consoleStep nodeReady ⟨LogLevel.info, "Node", "x"⟩).1.instanceId = nodeReady.instanceId ∧
    (consoleStep nodeReady ⟨LogLevel.info, "Node", "x"⟩).1.id = nodeReady.id ∧
    (processTick nodeReady [modelA] none failingPost).state.machineId = nodeReady.machineId ∧
    (processTick nodeReady [modelA] none failingPost).state.instanceId = nodeReady.instanceId ∧
    (processTick nodeReady [modelA] none failingPost).state.id = nodeReady.id ∧
    (setFactory nodeReady ⟨[], 3⟩).machineId = nodeReady.machineId ∧
    (setFactory nodeReady ⟨[], 3⟩).instanceId = nodeReady.instanceId ∧
    (setFactory nodeReady ⟨[], 3⟩).id = nodeReady.id ∧
    getNextNodeId nodeReady = nodeReady.id :=
  C10_identity_invariant
    ⟨some "M1", "h", none, none, none, some true, some true, 1000⟩ "HOST" (1/2 : ℚ)
    (by norm_num) (by norm_num) "M1" rfl rfl
    ⟨none, "h", none, none, none, none, none, 2000⟩ "H2" 0 rfl
    nodeReady ⟨LogLevel.info, "Node", "x"⟩ [modelA] none failingPost ⟨[], 3⟩

/-- Times appearing in the output of `startLoop` are exactly times of the
input tick list. -/
theorem startLoop_mem_time {α : Type} (dur : Nat → Nat) (act : Nat → α)
    (ts : List Nat) :
    ∀ (busy : Nat) (p : Nat × Option α),
      p ∈ startLoop dur act ts busy → p.1 ∈ ts := by
  induction ts with
  | nil => intro busy p hp; simp [startLoop] at hp
  | cons t ts ih =>
      intro busy p hp
      simp only [startLoop] at hp
      split at hp <;>
        rcases List.mem_cons.mp hp with h | h <;>
        first
          | (subst h; exact List.mem_cons_self _ _)
          | exact List.mem_cons_of_mem _ (ih _ _ h)

/-- While the inner job is in flight, `startLoop` drops ticks: with
strictly increasing tick times, any entry whose time is strictly before
the current `busyUntil` carries no activity. -/
theorem startLoop_drop_of_lt_busy {α : Type} (dur : Nat → Nat) (act : Nat → α)
    (ts : List Nat) :
    ∀ (busy : Nat), ts.Sorted (· < ·) →
      ∀ p ∈ startLoop dur act ts busy, p.1 < busy → p.2 = none := by
  induction ts with
  | nil => intro busy _ p hp; simp [startLoop] at hp
  | cons t ts ih =>
      intro busy hsort p hp hlt
      have hs := List.sorted_cons.mp hsort
      simp only [startLoop] at hp
      by_cases hb : t < busy
      · rw [if_pos hb] at hp
        rcases List.mem_cons.mp hp with h | h
        · subst h; rfl
        · exact ih busy hs.2 p h hlt
      · rw [if_neg hb] at hp
        rcases List.mem_cons.mp hp with h | h
        · subst h
          exact absurd hlt hb
        · have hmem := startLoop_mem_time dur act ts (t + dur t) p h
          have := hs.1 p.1 hmem
          omega

/-- Claim C1: single-flight of the main loop.  For every strictly
increasing sequence of clock ticks and every assignment of processing
durations, if the `exhaustMap`-driven loop accepts the tick at time t
(starting a job that completes at t + dur t), then every tick arriving
strictly inside the processing window is dropped: it produces no
fetch/execute/report activity (`none`) — the node processes at most one
job at a time. -/
theorem C1_single_flight {α : Type} (dur : Nat → Nat) (act : Nat → α)
    (ts : List Nat) (busy0 : Nat) (t : Nat) (a : α) (p : Nat × Option α)
    (hsort : ts.Sorted (· < ·))
    (hacc : (t, some a) ∈ startLoop dur act ts busy0)
    (hp : p ∈ startLoop dur act ts busy0)
    (h1 : t < p.1) (h2 : p.1 < t + dur t) :
    p.2 = none := by
  induction ts generalizing busy0 with
  | nil => simp [startLoop] at hacc
  | cons u us ih =>
      have hs := List.sorted_cons.mp hsort
      simp only [startLoop] at hacc hp
      by_cases hb : u < busy0
      · rw [if_pos hb] at hacc hp
        rcases List.mem_cons.mp hacc with hh | hh
        · simp at hh
        · rcases List.mem_cons.mp hp with hq | hq
          · subst hq; rfl
          · exact ih busy0 hs.2 hh hq
      · rw [if_neg hb] at hacc hp
        rcases List.mem_cons.mp hacc with hh | hh
        · have htu : t = u := by
            have := congrArg Prod.fst hh
            simpa using this
          rcases List.mem_cons.mp hp with hq | hq
          · subst hq
            have h1u : t < u := h1
            omega
          · apply startLoop_drop_of_lt_busy dur act us (u + dur u) hs.2 p hq
            have hpu : p.1 < t + dur t := h2
            rw [htu] at hpu
            exact hpu
        · rcases List.mem_cons.mp hp with hq | hq
          · have hmem := startLoop_mem_time dur act us (u + dur u) (t, some a) hh
            have hut : u < t := hs.1 _ hmem
            subst hq
            have h1u : t < u := h1
            omega
          · exact ih (u + dur u) hs.2 hh hq

/-- Witness for C1: ticks at times 0, 2, 3, 7 with every job taking 5
units: the tick at time 0 is accepted, and the theorem applied to the
tick at time 3 (inside the window (0, 5)) shows it dropped. -/
theorem C1_single_flight_witness :
    ((0, some 0) : Nat × Option Nat) ∈
      startLoop (fun _ => 5) (fun u => u) [0, 2, 3, 7] 0 ∧
    ((3, none) : Nat × Option Nat) ∈
      startLoop (fun _ => 5) (fun u => u) [0, 2, 3, 7] 0 ∧
    ((3, none) : Nat × Option Nat).2 = none := by
  refine ⟨by decide, by decide,
    C1_single_flight (fun _ => 5) (fun u => u) [0, 2, 3, 7] 0 0 0 (3, none)
      (by decide) (by decide) (by decide) (by decide) (by decide)⟩

/-- Witness for C9: a quiet-mode node receiving a `trace` record, and the
constructor's default divisor. -/
theorem C9_trace_progress_witness :
    (consoleStep nodeReady ⟨LogLevel.trace, "C1", "tick"⟩).1.counter =
      nodeReady.counter + 1 ∧
    secondaryMarker nodeReady ⟨LogLevel.trace, "C1", "tick"⟩ =
      (if 0 < nodeReady.counterDiv ∧
          ((nodeReady.counter : Int) + 1) % nodeReady.counterDiv = 0
        then [ConsoleOut.dot] else []) ∧
    (nodeReady.counterDiv ≤ 0 →
      secondaryMarker nodeReady ⟨LogLevel.trace, "C1", "tick"⟩ = []) ∧
    (nodeReady.counterDiv = 1000 →
      (secondaryMarker nodeReady ⟨LogLevel.trace, "C1", "tick"⟩ = [ConsoleOut.dot] ↔
        (1000 : Int) ∣ ((nodeReady.counter : Int) + 1))) ∧
    (mkNode ⟨none, "h", none, none, none, none, none, 2000⟩ "HOST" 0).counterDiv = 1000 :=
  C9_trace_progress nodeReady ⟨LogLevel.trace, "C1", "tick"⟩
    ⟨none, "h", none, none, none, none, none, 2000⟩ "HOST" 0 rfl rfl
